import Mathlib

/-!
Verification of the persistence-and-ranking engine of the ZONORG farming game
(source: `src/database/database.js`, `src/database/schema.sql`, and the HTTP
route handlers under `src/routes` and `src/database/routes`), as a shallow
embedding in Lean.

JavaScript/JSON values are embedded as the inductive `JsonValue`; SQLite
tables are embedded as Lean lists of row structures; fallible operations
return `Except`.  Columns that hold JSON text are embedded as holding the
parsed tree itself, since `JSON.parse (JSON.stringify v)` returns `v`
unchanged for every JSON tree `v`.
-/

/-- A JSON / JavaScript value: the dynamic payloads handled by the engine.
Numbers are embedded as integers (every payload appearing in the repository
uses integer literals). -/
inductive JsonValue where
  | null
  | bool (b : Bool)
  | num (n : Int)
  | str (s : String)
  | arr (elems : List JsonValue)
  | obj (fields : List (String × JsonValue))

/-- JavaScript member access `v.k`: `none` models `undefined` (the value is
not an object, or the key is absent). -/
def jget : JsonValue → String → Option JsonValue
  | .obj fields, k => List.lookup k fields
  | _, _ => none

/-- Truthiness of a JavaScript value, as tested by `if (v)` and `v || d`. -/
def jsTruthy : JsonValue → Bool
  | .null => false
  | .bool b => b
  | .num n => n != 0
  | .str s => s != ""
  | .arr _ => true
  | .obj _ => true

/-- The JavaScript expression `v || d`, where `v` may be `undefined`
(modelled as `none`). -/
def jsOr (v : Option JsonValue) (d : JsonValue) : JsonValue :=
  match v with
  | some x => if jsTruthy x then x else d
  | none => d

/-- Boolean test for the presence of a key on a JavaScript object. -/
def jhas (v : JsonValue) (k : String) : Bool :=
  (jget v k).isSome

/-! ## Game snapshot store (`game_saves` table) -/

/-- A row of the `game_saves` table as created by `schema.sql` (the schema
file is present in the repository, so `initSchema` executes it): an
autoincrement `id` primary key — the table's only uniqueness — plus `user_id`
(no uniqueness constraint) and the three JSON columns written by
`saveGameState`.  The autoincrement `id` plays no role in the code and is
omitted; `updated_at` is an abstract timestamp. -/
structure SaveRow where
  user_id : Nat
  game_state : JsonValue
  plots_data : JsonValue
  camera_data : JsonValue
  updated_at : Nat

/-- `Database.saveGameState` (`src/database/database.js` lines 200-224):
extracts `gameData.gameState || {}`, `gameData.plots || []` and
`gameData.camera || {x:0,y:0,scrollEnabled:false}` and executes
`INSERT OR REPLACE INTO game_saves (user_id, game_state, plots_data,
camera_data, updated_at) VALUES (?,?,?,?,CURRENT_TIMESTAMP)`.  Because
`game_saves` declares no uniqueness on `user_id`, the `OR REPLACE` clause can
never fire (the only key is the fresh autoincrement `id`), so the statement
always appends a new row. -/
def saveGameState (db : List SaveRow) (now : Nat) (userId : Nat)
    (gameData : JsonValue) : List SaveRow :=
  db ++ [{ user_id := userId
           game_state := jsOr (jget gameData "gameState") (.obj [])
           plots_data := jsOr (jget gameData "plots") (.arr [])
           camera_data := jsOr (jget gameData "camera")
             (.obj [("x", .num 0), ("y", .num 0), ("scrollEnabled", .bool false)])
           updated_at := now }]

/-- One comparison step of the `ORDER BY updated_at DESC LIMIT 1` row
selection: keep the row with the strictly greater timestamp.  SQL leaves the
winner among equal `updated_at` values unspecified; this model keeps the
earlier-inserted row on a tie, and no theorem below depends on that choice:
the round-trip theorem assumes the new save's timestamp is strictly fresher
than every stored row's, so its conclusion holds under either resolution of
the tie. -/
def laterSave (acc : Option SaveRow) (r : SaveRow) : Option SaveRow :=
  match acc with
  | none => some r
  | some b => if b.updated_at < r.updated_at then some r else some b

/-- The query `SELECT * FROM game_saves WHERE user_id = ? ORDER BY updated_at
DESC LIMIT 1` used by `loadGameState`: the user's row with the greatest
`updated_at`. -/
def latestSave (db : List SaveRow) (userId : Nat) : Option SaveRow :=
  (db.filter (fun r => r.user_id == userId)).foldl laterSave none

/-- `Database.loadGameState` (`src/database/database.js` lines 226-261):
reads the most recent save row, parses the three JSON columns and assembles
the response object — including the three extra keys `sustainabilityMetrics`,
`weather` and `season` copied out of the stored game state (each defaulting
to `{}`), and a `metadata.lastSaved` field. -/
def loadGameState (db : List SaveRow) (userId : Nat) : Option JsonValue :=
  match latestSave db userId with
  | none => none
  | some save =>
      some (.obj
        [("gameData", .obj
            [("gameState", save.game_state),
             ("plots", save.plots_data),
             ("camera", save.camera_data),
             ("sustainabilityMetrics",
               jsOr (jget save.game_state "sustainabilityMetrics") (.obj [])),
             ("weather", jsOr (jget save.game_state "weather") (.obj [])),
             ("season", jsOr (jget save.game_state "season") (.obj []))]),
         ("metadata", .obj [("lastSaved", .num (Int.ofNat save.updated_at))])])

/-! ## Credential store (`users` table) -/

/-- Typed error surface of the engine.  Each constructor corresponds to one
distinct error produced by `src/database/database.js`:
`userNotFound` = `new Error('User not found')`,
`invalidPassword` = `new Error('Invalid password')`,
`duplicateIdentity` = `new Error('Username or email already exists')`,
`invalidCategory` = `new Error('Invalid leaderboard category')`;
`duplicateAchievement` is the violation of the
`UNIQUE(user_id, achievement_name)` constraint declared by
`createTablesDirectly`. -/
inductive DbError where
  | userNotFound
  | invalidPassword
  | duplicateIdentity
  | duplicateAchievement
  | invalidCategory
deriving DecidableEq, Repr

/-- A row of the `users` table (`schema.sql` lines 5-20): `username` and
`email` each carry a `UNIQUE` constraint; `is_active` defaults to true.
Progress-summary columns not touched by the verified operations are
omitted. -/
structure UserRow where
  id : Nat
  username : String
  email : String
  password_hash : String
  display_name : Option String
  is_active : Bool
deriving DecidableEq, Repr

/-- Model of `bcrypt.hashSync(password, rounds)`: an injective one-way
encoding of the password (collisions of the real hash are ignored). -/
def bcryptHash (password : String) : String :=
  String.append "bcrypt$" password

/-- Model of `bcrypt.compareSync(password, hash)`: the comparison succeeds
exactly when `hash` is the stored hash of `password`. -/
def bcryptCompare (password hash : String) : Bool :=
  bcryptHash password == hash

/-- The `WHERE (username = ? OR email = ?) AND is_active = TRUE` lookup used
by `authenticateUser`. -/
def activeLookup (db : List UserRow) (usernameOrEmail : String) : Option UserRow :=
  db.find? (fun u =>
    (u.username == usernameOrEmail || u.email == usernameOrEmail) && u.is_active)

/-- The row inserted by `Database.createUser`: `INSERT INTO users (username,
email, password_hash, display_name)`, storing `bcrypt.hashSync(password, 10)`
and `displayName || username`, with `is_active` at its default of true. -/
def newUserRow (newId : Nat) (username email password : String)
    (displayName : Option String) : UserRow :=
  { id := newId
    username := username
    email := email
    password_hash := bcryptHash password
    display_name := some (match displayName with
      | some d => d
      | none => username)
    is_active := true }

/-- `Database.createUser` (`src/database/database.js` lines 158-177): a
violation of either `UNIQUE` column (any existing row with the same username
or email) is mapped to the duplicate-identity error; otherwise the new row
is appended. -/
def createUser (db : List UserRow) (newId : Nat) (username email password : String)
    (displayName : Option String) : Except DbError (List UserRow) :=
  if db.any (fun u => u.username == username || u.email == email) then
    .error .duplicateIdentity
  else
    .ok (db ++ [newUserRow newId username email password displayName])

/-- Lowercasing of a string, character by character (the kernel-reducible
equivalent of `String.toLower`). -/
def lowerString (s : String) : String :=
  String.mk (s.data.map Char.toLower)

/-- Model of `express-validator`'s `normalizeEmail()` applied by the
`/register` route before `createUser` is called: with its default
`all_lowercase` option the whole address is lowercased. -/
def normalizeEmail (email : String) : String :=
  lowerString email

/-- The `/register` route (`router.post('/register')`): validates the body,
normalizes the email, then calls `req.db.createUser(username, email,
password, displayName)`. -/
def register (db : List UserRow) (newId : Nat) (username email password : String)
    (displayName : Option String) : Except DbError (List UserRow) :=
  createUser db newId username (normalizeEmail email) password displayName

/-- The identity fields returned by a successful `authenticateUser`. -/
structure AuthIdent where
  id : Nat
  username : String
  email : String
  display_name : Option String
deriving DecidableEq, Repr

/-- `Database.authenticateUser` (`src/database/database.js` lines 179-198):
looks up an active user by username or email; rejects with
`'User not found'` when no row matches, with `'Invalid password'` when the
bcrypt comparison fails, and otherwise resolves with the user's identity
fields (the `last_login` side effect does not alter any field read here). -/
def authenticateUser (db : List UserRow) (usernameOrEmail password : String) :
    Except DbError AuthIdent :=
  match activeLookup db usernameOrEmail with
  | none => .error .userNotFound
  | some u =>
      if bcryptCompare password u.password_hash then
        .ok { id := u.id, username := u.username, email := u.email,
              display_name := u.display_name }
      else
        .error .invalidPassword

/-! ## Session manager (`user_sessions` table) -/

/-- Model of `crypto.createHash('sha256').update(token).digest('hex')` as
used by `authenticateToken` (`src/routes/game.js` line 18): an injective
one-way fingerprint of the bearer token (collisions of the real digest are
ignored). -/
def sha256hex (token : String) : String :=
  String.append "sha256$" token

/-- A row of the `user_sessions` table (`schema.sql` lines 72-82): the
fingerprint of the bearer token, the owning user and the expiry instant.
Origin metadata (`ip_address`, `user_agent`) and the `last_used` column play
no role in the verified properties and are omitted. -/
structure SessionRow where
  user_id : Nat
  token_hash : String
  expires_at : Nat
deriving DecidableEq, Repr

/-- Session validation failures distinguished by the session manager. -/
inductive SessionError where
  | invalidSession
  | expiredSession
deriving DecidableEq, Repr

/-- The identity fields a validated session yields to the route
(`session.user_id`, `session.username`, `session.email`). -/
structure SessionIdent where
  user_id : Nat
  username : String
  email : String
deriving DecidableEq, Repr

/-- `database.createSession(userId, tokenHash, expiresAt, ip, userAgent)` as
called by the `/register` and `/login` routes (`src/js/api-client.js`
lines 296-307): inserts a session row holding only the token fingerprint and
the expiry instant. -/
def createSession (sessions : List SessionRow) (userId : Nat)
    (tokenHash : String) (expiresAt : Nat) : List SessionRow :=
  sessions ++ [{ user_id := userId, token_hash := tokenHash,
                 expires_at := expiresAt }]

/-- Modelled from the spec: `database.validateSession` is called by
`authenticateToken` (`src/routes/game.js` lines 9-35) but its implementation
is not among the source files.  Following §4.2 of the design: the session is
looked up by fingerprint; the validation fails with `InvalidSession` if no
record matches, fails with `ExpiredSession` if the current time is not before
the expiry instant (even though the record still exists), and otherwise
returns the bound user's identity fields. -/
def validateSession (sessions : List SessionRow) (users : List UserRow)
    (tokenHash : String) (now : Nat) : Except SessionError SessionIdent :=
  match sessions.find? (fun s => s.token_hash == tokenHash) with
  | none => .error .invalidSession
  | some s =>
      if now < s.expires_at then
        match users.find? (fun u => u.id == s.user_id) with
        | some u => .ok { user_id := u.id, username := u.username, email := u.email }
        | none => .error .invalidSession
      else
        .error .expiredSession

/-- `authenticateToken` (`src/routes/game.js` lines 9-35): recomputes the
sha256 fingerprint of the presented raw bearer token and validates the
session. -/
def authenticateToken (sessions : List SessionRow) (users : List UserRow)
    (token : String) (now : Nat) : Except SessionError SessionIdent :=
  validateSession sessions users (sha256hex token) now

/-! ## Achievement ledger (`achievements` table) -/

/-- A row of the `achievements` table: the owning user and the achievement
name (the columns the uniqueness question is about; type, description,
points and timestamp are orthogonal and omitted). -/
structure AchievementRow where
  user_id : Nat
  achievement_name : String
deriving DecidableEq, Repr

/-- An insert into the `achievements` table as declared by `schema.sql`
lines 37-46: that declaration carries NO `UNIQUE(user_id, achievement_name)`
constraint, so every insert — duplicates included — succeeds and appends a
row.  `schema.sql` is present in the repository, so this is the table
`initSchema` actually creates. -/
def achievementsInsertSchemaSql (db : List AchievementRow)
    (r : AchievementRow) : List AchievementRow :=
  db ++ [r]

/-- An insert into the `achievements` table as declared by the fallback
`createTablesDirectly` (`src/database/database.js` lines 88-98): that
declaration ends with `UNIQUE(user_id, achievement_name)`, so a duplicate
pair violates the constraint and the insert is rejected. -/
def achievementsInsertDirect (db : List AchievementRow)
    (r : AchievementRow) : Except DbError (List AchievementRow) :=
  if db.any (fun a =>
      a.user_id == r.user_id && a.achievement_name == r.achievement_name) then
    .error .duplicateAchievement
  else
    .ok (db ++ [r])

/-- The number of stored achievement rows for a `(user, name)` pair. -/
def achievementCount (db : List AchievementRow) (userId : Nat)
    (name : String) : Nat :=
  (db.filter (fun a =>
    a.user_id == userId && a.achievement_name == name)).length

/-! ## Leaderboard engine (`Database.getLeaderboard`) -/

/-- A row of the `game_saves` table in the shape the `getLeaderboard`
queries ASSUME, reading `gs.coins`, `gs.level` and `gs.sustainability_score`
— columns declared only by the fallback `createTablesDirectly` variant of
the table (`src/database/database.js` lines 72-85).  The table `initSchema`
actually creates (from `schema.sql`, which exists) has none of these
columns — see `gameSavesColumns` and `getLeaderboardChecked`, which make
SQLite's column resolution explicit; this hypothetical row shape feeds only
the would-be success branch of those queries. -/
structure GameSaveStats where
  user_id : Nat
  level : Int
  coins : Int
  sustainability_score : Int
  updated_at : Nat
deriving DecidableEq, Repr

/-- One row of the `SELECT u.username, u.display_name, gs.<column> as score,
gs.updated_at` result shape shared by the three `getLeaderboard` queries. -/
structure ScoreRow where
  username : String
  display_name : Option String
  score : Int
  updated_at : Nat
deriving DecidableEq, Repr

/-- The `FROM users u JOIN game_saves gs ON u.id = gs.user_id` join, with the
category's column selected `as score`. -/
def selectScores (users : List UserRow) (saves : List GameSaveStats)
    (column : GameSaveStats → Int) : List ScoreRow :=
  saves.filterMap (fun g =>
    (users.find? (fun u => u.id == g.user_id)).map (fun u =>
      { username := u.username, display_name := u.display_name,
        score := column g, updated_at := g.updated_at }))

/-- The comparison realising `ORDER BY <score column> DESC`. -/
def scoreDesc (a b : ScoreRow) : Prop :=
  b.score ≤ a.score

instance : DecidableRel scoreDesc := fun a b => by
  unfold scoreDesc; infer_instance

instance : IsTotal ScoreRow scoreDesc :=
  ⟨fun a b => le_total b.score a.score⟩

instance : IsTrans ScoreRow scoreDesc :=
  ⟨fun _ _ _ h1 h2 => le_trans h2 h1⟩

/-- SQLite `LIMIT ?` semantics: a negative limit means no limit at all, a
non-negative limit keeps that many rows from the front. -/
def sqlLimit (limit : Int) (rows : List ScoreRow) : List ScoreRow :=
  if limit < 0 then rows else rows.take limit.toNat

/-- One element of the list `Database.getLeaderboard` resolves with:
`{rank: index + 1, username: row.display_name || row.username, score:
row.score, lastUpdated: row.updated_at}` (`src/database/database.js`
lines 295-300). -/
structure LbEntry where
  rank : Nat
  username : String
  score : Int
  lastUpdated : Nat
deriving DecidableEq, Repr

/-- The JavaScript expression `row.display_name || row.username`
(`null` and the empty string are falsy). -/
def displayOr (displayName : Option String) (username : String) : String :=
  match displayName with
  | some d => if d == "" then username else d
  | none => username

/-- The `rows.map((row, index) => ({rank: index + 1, ...}))` mapping of
`getLeaderboard`, written as a recursion carrying the running index. -/
def rankRows (index : Nat) : List ScoreRow → List LbEntry
  | [] => []
  | r :: rs =>
      { rank := index + 1, username := displayOr r.display_name r.username,
        score := r.score, lastUpdated := r.updated_at } :: rankRows (index + 1) rs

/-- The full result of one recognized-category query of `getLeaderboard`:
join, `ORDER BY score DESC` (embedded as an insertion sort under
`scoreDesc`), `LIMIT`, then the rank-assigning map. -/
def leaderboardView (users : List UserRow) (saves : List GameSaveStats)
    (column : GameSaveStats → Int) (limit : Int) : List LbEntry :=
  rankRows 0 (sqlLimit limit (List.insertionSort scoreDesc (selectScores users saves column)))

/-- `Database.getLeaderboard` (`src/database/database.js` lines 263-304):
a switch over the category selecting the scored column — `'coins'`,
`'level'` and `'sustainability'` are the only recognized categories, every
other string is rejected with `'Invalid leaderboard category'` by the
default branch BEFORE any SQL runs.  The limit is handed to SQLite
unchecked.  The three `.ok` branches give the result the query WOULD
produce if its score column existed; against the `game_saves` table
`initSchema` actually creates, that column never exists and SQLite rejects
the statement instead — `getLeaderboardChecked` below makes that column
resolution explicit, and only the default-rejection branch and the
entry-shape mapping of this definition are exercised by theorems about
observable behavior. -/
def getLeaderboard (users : List UserRow) (saves : List GameSaveStats)
    (category : String) (limit : Int) : Except DbError (List LbEntry) :=
  match category with
  | "coins" => .ok (leaderboardView users saves (fun g => g.coins) limit)
  | "level" => .ok (leaderboardView users saves (fun g => g.level) limit)
  | "sustainability" =>
      .ok (leaderboardView users saves (fun g => g.sustainability_score) limit)
  | _ => .error .invalidCategory

/-- The column names of the `game_saves` table `initSchema` actually creates
(`schema.sql` lines 23-34; the schema file exists, so this declaration is
the one executed): the JSON-blob layout, with no `coins`, `level` or
`sustainability_score` column. -/
def gameSavesColumns : List String :=
  ["id", "user_id", "save_name", "game_state", "plots_data", "camera_data",
   "created_at", "updated_at", "is_auto_save"]

/-- Outcome of running one `getLeaderboard` call against the executed
store: the entries, the category rejection raised by the switch before any
SQL, or the `no such column` error SQLite raises while resolving the
prepared statement against the table's actual columns (surfaced by the code
as a rejected promise, i.e. a storage failure). -/
inductive LeaderboardOutcome where
  | ok (entries : List LbEntry)
  | invalidCategory
  | noSuchColumn (column : String)
deriving DecidableEq, Repr

/-- `Database.getLeaderboard` with SQLite's column resolution made
explicit: the category switch first, exactly as in the code (anything but
`'coins'`/`'level'`/`'sustainability'` is rejected before any SQL); then
the selected score column — `gs.coins`, `gs.level` or
`gs.sustainability_score` — is resolved against the columns of the
`game_saves` table created by `schema.sql`; a missing column makes SQLite
reject the whole statement with `no such column`, and only an existing
column would let the query produce the ordered, ranked view. -/
def getLeaderboardChecked (users : List UserRow) (saves : List GameSaveStats)
    (category : String) (limit : Int) : LeaderboardOutcome :=
  match category with
  | "coins" =>
      if gameSavesColumns.contains "coins" then
        .ok (leaderboardView users saves (fun g => g.coins) limit)
      else .noSuchColumn "coins"
  | "level" =>
      if gameSavesColumns.contains "level" then
        .ok (leaderboardView users saves (fun g => g.level) limit)
      else .noSuchColumn "level"
  | "sustainability" =>
      if gameSavesColumns.contains "sustainability_score" then
        .ok (leaderboardView users saves (fun g => g.sustainability_score) limit)
      else .noSuchColumn "sustainability_score"
  | _ => .invalidCategory

/-- The limit computation of the leaderboard routes
(`src/routes/leaderboard.js` line 10): `parseInt(req.query.limit) || 10` —
a parsed value of 0 is falsy and becomes the default 10, as does an absent
or unparsable query parameter (`NaN`, modelled as `none`). -/
def routeLimit (parsed : Option Int) : Int :=
  match parsed with
  | some n => if n == 0 then 10 else n
  | none => 10

/-! ## Route layer: save-triggered propagation (`src/routes/game.js`) -/

/-- The `sustainabilityScores` lookup table of the save route
(`src/routes/game.js` lines 80-87) combined with its `|| 1` fallback:
`sustainabilityScores[gameState.sustainabilityRating] || 1`. -/
def sustainabilityScore (gameState : JsonValue) : Int :=
  match jget gameState "sustainabilityRating" with
  | some (.str "Eco Master") => 5
  | some (.str "Green Farmer") => 4
  | some (.str "Eco Enthusiast") => 3
  | some (.str "Learning") => 2
  | some (.str "Beginner") => 1
  | _ => 1

/-- Truthiness of a possibly-undefined JavaScript value. -/
def jsTruthyOpt (v : Option JsonValue) : Bool :=
  match v with
  | some x => jsTruthy x
  | none => false

/-- The leaderboard updates the save route forwards
(`src/routes/game.js` lines 66-88): under the guard
`gameState.level && gameState.coins !== undefined` it calls
`database.updateLeaderboard` for the categories `'total_coins'`,
`'farm_level'` and `'sustainability'`, the last with the mapped ordinal
score.  The returned pairs are the `(category, score)` arguments of those
calls. -/
def saveRouteLeaderboardUpdates (gameState : JsonValue) : List (String × JsonValue) :=
  if jsTruthyOpt (jget gameState "level") && (jget gameState "coins").isSome then
    [("total_coins", (jget gameState "coins").getD .null),
     ("farm_level", (jget gameState "level").getD .null),
     ("sustainability", .num (sustainabilityScore gameState))]
  else
    []

/-! ## Route layer: leaderboard formatting (`src/routes/leaderboard.js`) -/

/-- The JavaScript object an element of the `Database.getLeaderboard` result
is: exactly the four keys `rank`, `username`, `score`, `lastUpdated` built at
`src/database/database.js` lines 295-300 (the timestamp is embedded as a
number). -/
def LbEntry.toObj (e : LbEntry) : JsonValue :=
  .obj [("rank", .num (Int.ofNat e.rank)),
        ("username", .str e.username),
        ("score", .num e.score),
        ("lastUpdated", .num (Int.ofNat e.lastUpdated))]

/-- The fields the `GET /:category` route reads off each entry
(`src/routes/leaderboard.js` lines 47-53): `entry.rank_position`,
`entry.username`, `entry.score`, `entry.updated_at`.  A field the entry
object does not carry reads as `undefined` (`none`). -/
structure FormattedEntry where
  rank : Option JsonValue
  username : Option JsonValue
  score : Option JsonValue
  updatedAt : Option JsonValue

/-- The per-entry mapping of `formattedLeaderboard`
(`src/routes/leaderboard.js` lines 27-54), restricted to the field reads
(the category-specific `formattedScore` cosmetics are orthogonal). -/
def formatEntry (entry : JsonValue) : FormattedEntry :=
  { rank := jget entry "rank_position"
    username := jget entry "username"
    score := jget entry "score"
    updatedAt := jget entry "updated_at" }

/-- The predicate of `fullLeaderboard.find(entry => entry.user_id ===
parseInt(userId))` in the `GET /user/:userId/position` route
(`src/routes/leaderboard.js` line 157): strict equality of the entry's
`user_id` field with a number is false when the field is `undefined` or not
a number. -/
def userIdMatches (entry : JsonValue) (userId : Int) : Bool :=
  match jget entry "user_id" with
  | some (.num k) => k == userId
  | _ => false

/-- The user-position lookup of the `GET /user/:userId/position` route:
fetch the full category leaderboard and search it for the user's entry. -/
def findUserPosition (users : List UserRow) (saves : List GameSaveStats)
    (category : String) (userId : Int) : Option JsonValue :=
  match getLeaderboard users saves category 1000 with
  | .ok entries => (entries.map LbEntry.toObj).find? (fun o => userIdMatches o userId)
  | .error _ => none

/-! ## Sample data (the §8 scenario of the design) -/

/-- The scenario game state: `{level:3, coins:500, xp:250,
sustainabilityRating:"Learning"}`. -/
def sampleGameState : JsonValue :=
  .obj [("level", .num 3), ("coins", .num 500), ("xp", .num 250),
        ("sustainabilityRating", .str "Learning")]

/-- The scenario snapshot payload: `{state, plots:[], camera:{x:0,y:0}}`. -/
def samplePayload : JsonValue :=
  .obj [("gameState", sampleGameState), ("plots", .arr []),
        ("camera", .obj [("x", .num 0), ("y", .num 0)])]

/-- The scenario user `farmer1`, registered with password `pw123456`. -/
def sampleUser : UserRow :=
  { id := 1, username := "farmer1", email := "f1@x.com",
    password_hash := bcryptHash "pw123456", display_name := none,
    is_active := true }

/-- A second stored user, for multi-row leaderboard states. -/
def sampleUser2 : UserRow :=
  { id := 2, username := "farmer2", email := "f2@x.com",
    password_hash := bcryptHash "pw", display_name := none,
    is_active := true }

/-- The invariant of §3: username and email are each globally unique among
active users. -/
def uniqueIdentities (db : List UserRow) : Prop :=
  (db.filter (fun u => u.is_active)).Pairwise
    (fun a b => a.username ≠ b.username ∧ a.email ≠ b.email)

/-! ## Helper lemmas -/

/-- `find?` skips a prefix on which the predicate fails. -/
theorem find?_append_of_prefix_false {α : Type} (p : α → Bool) (l1 l2 : List α)
    (h : ∀ x ∈ l1, p x = false) : (l1 ++ l2).find? p = l2.find? p := by
  induction l1 with
  | nil => rfl
  | cons a l ih =>
      have ha : p a = false := h a (List.mem_cons_self a l)
      simp only [List.cons_append, List.find?, ha]
      exact ih (fun x hx => h x (List.mem_cons_of_mem a hx))

/-- The fold of `laterSave` yields the accumulator or one of the rows. -/
theorem foldl_laterSave_cases (l : List SaveRow) :
    ∀ acc : Option SaveRow, l.foldl laterSave acc = acc ∨
      ∃ b ∈ l, l.foldl laterSave acc = some b := by
  induction l with
  | nil => intro acc; exact Or.inl rfl
  | cons r rs ih =>
      intro acc
      have step : List.foldl laterSave acc (r :: rs) =
          List.foldl laterSave (laterSave acc r) rs := rfl
      rcases ih (laterSave acc r) with h | ⟨b, hb, h⟩
      · rw [step, h]
        cases acc with
        | none => exact Or.inr ⟨r, List.mem_cons_self r rs, rfl⟩
        | some b0 =>
            by_cases hle : b0.updated_at < r.updated_at
            · refine Or.inr ⟨r, List.mem_cons_self r rs, ?_⟩
              simp [laterSave, hle]
            · refine Or.inl ?_
              simp [laterSave, hle]
      · exact Or.inr ⟨b, List.mem_cons_of_mem r hb, step ▸ h⟩

/-- Appending a strictly fresher row for the user makes it the row
`latestSave` picks, independently of how equal-timestamp ties would be
resolved (none arise). -/
theorem latestSave_append (db : List SaveRow) (r : SaveRow) (userId : Nat)
    (hr : r.user_id = userId)
    (hfresh : ∀ x ∈ db, x.updated_at < r.updated_at) :
    latestSave (db ++ [r]) userId = some r := by
  unfold latestSave
  have hpr : (r.user_id == userId) = true := by simp [hr]
  rw [List.filter_append]
  have hfr : List.filter (fun x => x.user_id == userId) [r] = [r] := by
    simp [List.filter, hpr]
  rw [hfr, List.foldl_append]
  rcases foldl_laterSave_cases (List.filter (fun x => x.user_id == userId) db) none with
    h | ⟨b, hb, h⟩
  · rw [h]; rfl
  · rw [h]
    have hble : b.updated_at < r.updated_at :=
      hfresh b (List.mem_of_mem_filter hb)
    simp [laterSave, hble]

/-! ## C1: snapshot round trip -/

/-- C1, counterexample: for the §8 scenario payload `P`, `load` after `save`
does not return a payload structurally equal to `P` — the returned
`gameData` carries the extra keys `sustainabilityMetrics`, `weather` and
`season` that `P` does not have. -/
theorem c1_roundtrip_counterexample :
    (loadGameState (saveGameState [] 1 1 samplePayload) 1).bind
        (fun r => jget r "gameData") ≠ some samplePayload := by
  intro h
  have h2 := congrArg (fun o => Option.map (fun g => jhas g "weather") o) h
  revert h2
  decide

/-- C1, amended: for every valid snapshot payload (state an object, plots a
sequence, camera an object) saved on top of any database whose rows are all
STRICTLY older than the save — so that `ORDER BY updated_at DESC` has a
unique maximum and the program's behavior does not depend on the
SQL-unspecified tie among equal timestamps — `load` returns a payload whose
`gameState`, `plots` and `camera` components equal those of the saved
payload; only these three components round-trip — the surrounding object
additionally carries derived fields (see the counterexample). -/
theorem c1_components_roundtrip (db : List SaveRow) (now uid : Nat)
    (p : JsonValue) (gs : List (String × JsonValue)) (ps : List JsonValue)
    (cam : List (String × JsonValue))
    (hgs : jget p "gameState" = some (.obj gs))
    (hps : jget p "plots" = some (.arr ps))
    (hcam : jget p "camera" = some (.obj cam))
    (hfresh : ∀ r ∈ db, r.updated_at < now) :
    ∃ g, (loadGameState (saveGameState db now uid p) uid).bind
          (fun r => jget r "gameData") = some g ∧
        jget g "gameState" = some (.obj gs) ∧
        jget g "plots" = some (.arr ps) ∧
        jget g "camera" = some (.obj cam) := by
  have hnew : latestSave (saveGameState db now uid p) uid = some
      { user_id := uid
        game_state := jsOr (jget p "gameState") (.obj [])
        plots_data := jsOr (jget p "plots") (.arr [])
        camera_data := jsOr (jget p "camera")
          (.obj [("x", .num 0), ("y", .num 0), ("scrollEnabled", .bool false)])
        updated_at := now } :=
    latestSave_append db _ uid rfl hfresh
  have e1 : jsOr (jget p "gameState") (.obj []) = .obj gs := by rw [hgs]; rfl
  have e2 : jsOr (jget p "plots") (.arr []) = .arr ps := by rw [hps]; rfl
  have e3 : jsOr (jget p "camera")
      (.obj [("x", .num 0), ("y", .num 0), ("scrollEnabled", .bool false)]) =
        .obj cam := by rw [hcam]; rfl
  refine ⟨.obj
      [("gameState", .obj gs), ("plots", .arr ps), ("camera", .obj cam),
       ("sustainabilityMetrics",
         jsOr (jget (JsonValue.obj gs) "sustainabilityMetrics") (.obj [])),
       ("weather", jsOr (jget (JsonValue.obj gs) "weather") (.obj [])),
       ("season", jsOr (jget (JsonValue.obj gs) "season") (.obj []))],
    ?_, rfl, rfl, rfl⟩
  unfold loadGameState
  rw [hnew, e1, e2, e3]
  rfl

/-- C1, witness for the amended theorem at the scenario payload. -/
theorem c1_components_roundtrip_witness :
    ∃ g, (loadGameState (saveGameState [] 5 1 samplePayload) 1).bind
          (fun r => jget r "gameData") = some g ∧
        jget g "gameState" = some sampleGameState ∧
        jget g "plots" = some (.arr []) ∧
        jget g "camera" = some (.obj [("x", .num 0), ("y", .num 0)]) :=
  c1_components_roundtrip [] 5 1 samplePayload
    [("level", .num 3), ("coins", .num 500), ("xp", .num 250),
     ("sustainabilityRating", .str "Learning")]
    [] [("x", .num 0), ("y", .num 0)]
    (by rfl) (by rfl) (by rfl) (by simp)

/-! ## C2: one snapshot per user -/

/-- C2: two saves by user 1 leave TWO `game_saves` rows for that user, not
one — the `game_saves` table has no uniqueness on `user_id`, so
`INSERT OR REPLACE` appends instead of replacing.  Evaluation of the code at
the failing input of the code-bug report. -/
theorem c2_save_appends_rows :
    ((saveGameState (saveGameState [] 1 1 samplePayload) 2 1 samplePayload).filter
        (fun r => r.user_id == 1)).length = 2 := by
  rfl

/-! ## C3: save-triggered leaderboard propagation -/

/-- C3: the save route forwards the scenario state's values under the
categories `total_coins`, `farm_level` and `sustainability` (the last as the
mapped ordinal 2 for "Learning"), but `Database.getLeaderboard` rejects
`total_coins` for every database state and every limit — the propagated
scores can never be observed through `getLeaderboard("total_coins", 10)`.
Evaluation of the code at the failing input of the code-bug report. -/
theorem c3_total_coins_never_queryable :
    saveRouteLeaderboardUpdates sampleGameState =
        [("total_coins", .num 500), ("farm_level", .num 3),
         ("sustainability", .num 2)] ∧
      ∀ (users : List UserRow) (saves : List GameSaveStats) (limit : Int),
        getLeaderboard users saves "total_coins" limit =
          .error .invalidCategory := by
  exact ⟨rfl, fun _ _ _ => rfl⟩

/-! ## C5: credential error surface -/

/-- C5, counterexample: the two failing runs of `authenticateUser` return
DIFFERENT error kinds — `'User not found'` for an unknown name and
`'Invalid password'` for a failed hash comparison — so the error surface is
not the single `BadCredential` kind the claim states. -/
theorem c5_error_surface_counterexample :
    authenticateUser [sampleUser] "nosuchuser" "x" = .error .userNotFound ∧
      authenticateUser [sampleUser] "farmer1" "wrongpass" =
        .error .invalidPassword ∧
      DbError.userNotFound ≠ DbError.invalidPassword := by
  exact ⟨rfl, rfl, by decide⟩

/-- C5, amended: `authenticateUser` distinguishes the two failures — it
returns the user-not-found error whenever the active-user lookup misses, and
the invalid-password error whenever the lookup hits but the hash comparison
fails; the error surface therefore reveals which part of the credential pair
was wrong. -/
theorem c5_distinct_error_kinds (db : List UserRow) (nameOrEmail pw : String) :
    (activeLookup db nameOrEmail = none →
        authenticateUser db nameOrEmail pw = .error .userNotFound) ∧
      ∀ u, activeLookup db nameOrEmail = some u →
        bcryptCompare pw u.password_hash = false →
        authenticateUser db nameOrEmail pw = .error .invalidPassword := by
  constructor
  · intro h
    unfold authenticateUser
    rw [h]
  · intro u hu hpw
    unfold authenticateUser
    rw [hu]
    simp [hpw]

/-- C5, witness for the amended theorem: both failure branches at concrete
inputs. -/
theorem c5_distinct_error_kinds_witness :
    authenticateUser [sampleUser] "ghost" "x" = .error .userNotFound ∧
      authenticateUser [sampleUser] "farmer1" "badpw" =
        .error .invalidPassword :=
  ⟨(c5_distinct_error_kinds [sampleUser] "ghost" "x").1 (by rfl),
   (c5_distinct_error_kinds [sampleUser] "farmer1" "badpw").2 sampleUser
     (by rfl) (by rfl)⟩

/-! ## C6: achievement uniqueness -/

/-- C6: under the `achievements` table that `schema.sql` actually creates
(no `UNIQUE(user_id, achievement_name)`), inserting the same
`(1, "Eco Master")` twice succeeds and leaves two rows; under the fallback
table declared by `createTablesDirectly` the second insert violates the
unique constraint.  Evaluation of the code at the failing input of the
code-bug report. -/
theorem c6_duplicate_achievement_divergence :
    achievementCount
        (achievementsInsertSchemaSql
          (achievementsInsertSchemaSql [] ⟨1, "Eco Master"⟩) ⟨1, "Eco Master"⟩)
        1 "Eco Master" = 2 ∧
      achievementsInsertDirect (achievementsInsertSchemaSql [] ⟨1, "Eco Master"⟩)
          ⟨1, "Eco Master"⟩ = .error .duplicateAchievement := by
  exact ⟨rfl, rfl⟩

/-! ## C4: session expiry -/

/-- C4: for a session issued with expiry `now + ttl` and bound to user
`uid`, validating the raw token strictly before the expiry instant succeeds
and returns the bound user's identity, while validating at or after the
expiry instant fails with the expired-session error even though the session
record still exists in storage. -/
theorem c4_session_expiry (sessions : List SessionRow) (users : List UserRow)
    (token : String) (uid now ttl t1 t2 : Nat) (u0 : UserRow)
    (hu : users.find? (fun u => u.id == uid) = some u0)
    (hfresh : ∀ s ∈ sessions, (s.token_hash == sha256hex token) = false)
    (h1 : t1 < now + ttl) (h2 : now + ttl ≤ t2) :
    u0.id = uid ∧
      authenticateToken (createSession sessions uid (sha256hex token) (now + ttl))
          users token t1 =
        .ok { user_id := u0.id, username := u0.username, email := u0.email } ∧
      authenticateToken (createSession sessions uid (sha256hex token) (now + ttl))
          users token t2 =
        .error .expiredSession ∧
      (⟨uid, sha256hex token, now + ttl⟩ : SessionRow) ∈
        createSession sessions uid (sha256hex token) (now + ttl) := by
  have hid : u0.id = uid := by
    have h := List.find?_some hu
    simpa using h
  have hfind :
      (createSession sessions uid (sha256hex token) (now + ttl)).find?
          (fun s => s.token_hash == sha256hex token) =
        some ⟨uid, sha256hex token, now + ttl⟩ := by
    unfold createSession
    rw [find?_append_of_prefix_false _ sessions _ hfresh]
    simp [List.find?]
  refine ⟨hid, ?_, ?_, ?_⟩
  · unfold authenticateToken validateSession
    rw [hfind]
    simp only [h1, if_pos, hu]
  · unfold authenticateToken validateSession
    rw [hfind]
    have : ¬ t2 < now + ttl := Nat.not_lt.mpr h2
    simp [this]
  · unfold createSession
    simp

/-- C4, witness: a session issued at time 2 with ttl 5, validated at time 3
and at time 9. -/
theorem c4_session_expiry_witness :
    authenticateToken (createSession [] 1 (sha256hex "tok") (2 + 5))
        [sampleUser] "tok" 3 =
      .ok { user_id := 1, username := "farmer1", email := "f1@x.com" } ∧
    authenticateToken (createSession [] 1 (sha256hex "tok") (2 + 5))
        [sampleUser] "tok" 9 =
      .error .expiredSession := by
  have h := c4_session_expiry [] [sampleUser] "tok" 1 2 5 3 9 sampleUser
    (by rfl) (by simp) (by decide) (by decide)
  exact ⟨h.2.1, h.2.2.1⟩

/-! ## C7: registration uniqueness -/

/-- C7: if one register call succeeds, a second register call with the same
email (compared case-insensitively) or the same username fails with the
duplicate-identity error, and a register that succeeds preserves the
invariant that username and email are each unique among active users. -/
theorem c7_register_uniqueness (db db1 : List UserRow) (id1 id2 : Nat)
    (u1 e1 p1 u2 e2 p2 : String) (d1 d2 : Option String)
    (h1 : register db id1 u1 e1 p1 d1 = .ok db1)
    (hcoll : lowerString e2 = lowerString e1 ∨ u2 = u1) :
    register db1 id2 u2 e2 p2 d2 = .error .duplicateIdentity ∧
      (uniqueIdentities db → uniqueIdentities db1) := by
  unfold register createUser at h1
  rcases hany : db.any (fun u => u.username == u1 || u.email == normalizeEmail e1) with _ | _
  case false =>
    rw [hany] at h1
    simp only [Bool.false_eq_true, if_false, Except.ok.injEq] at h1
    subst h1
    have hrow : ((newUserRow id1 u1 (normalizeEmail e1) p1 d1).username == u2 ||
        (newUserRow id1 u1 (normalizeEmail e1) p1 d1).email == normalizeEmail e2) = true := by
      rcases hcoll with he | hn
      · have hee : normalizeEmail e1 = normalizeEmail e2 := by
          unfold normalizeEmail
          rw [he]
        simp [newUserRow, hee]
      · simp [newUserRow, hn]
    constructor
    · unfold register createUser
      have hall : (db ++ [newUserRow id1 u1 (normalizeEmail e1) p1 d1]).any
          (fun u => u.username == u2 || u.email == normalizeEmail e2) = true := by
        rw [List.any_append]
        simp only [List.any_cons, List.any_nil, Bool.or_false]
        rw [hrow]
        simp
      rw [hall]
      rfl
    · intro hinv
      unfold uniqueIdentities at hinv ⊢
      rw [List.filter_append, List.pairwise_append]
      have hactive : List.filter (fun u => u.is_active)
          [newUserRow id1 u1 (normalizeEmail e1) p1 d1] =
            [newUserRow id1 u1 (normalizeEmail e1) p1 d1] := by
        simp [newUserRow]
      refine ⟨hinv, ?_, ?_⟩
      · rw [hactive]
        simp
      · intro a ha b hb
        rw [hactive] at hb
        have hb1 : b = newUserRow id1 u1 (normalizeEmail e1) p1 d1 := by
          simpa using hb
        have hamem : a ∈ db := List.mem_of_mem_filter ha
        have hfa := List.any_eq_false.mp hany a hamem
        simp only [Bool.or_eq_true, not_or, beq_iff_eq] at hfa
        rw [hb1]
        exact ⟨by simpa [newUserRow] using hfa.1, by simpa [newUserRow] using hfa.2⟩
  case true =>
    rw [hany] at h1
    simp at h1

/-- C7, witness: registering `farmer2` with the email `F1@X.com` after
`farmer1` registered `f1@x.com` is rejected as a duplicate. -/
theorem c7_register_uniqueness_witness :
    register [newUserRow 1 "farmer1" "f1@x.com" "pw123456" none] 2 "farmer2"
        "F1@X.com" "pw999" none = .error .duplicateIdentity :=
  (c7_register_uniqueness [] _ 1 2 "farmer1" "f1@x.com" "pw123456" "farmer2"
    "F1@X.com" "pw999" none none (by rfl) (Or.inl (by rfl))).1

/-! ## C8: leaderboard ordering and ranks -/

/-- Every entry produced by `rankRows` takes its score from some input row. -/
theorem mem_rankRows_score : ∀ (i : Nat) (rows : List ScoreRow) (e : LbEntry),
    e ∈ rankRows i rows → ∃ r ∈ rows, e.score = r.score := by
  intro i rows
  induction rows generalizing i with
  | nil => intro e he; cases he
  | cons r rs ih =>
      intro e he
      rcases List.mem_cons.mp he with he1 | he2
      · exact ⟨r, List.mem_cons_self r rs, by rw [he1]⟩
      · obtain ⟨x, hx, hxe⟩ := ih (i + 1) e he2
        exact ⟨x, List.mem_cons_of_mem r hx, hxe⟩

/-- `rankRows` preserves the non-increasing order of scores. -/
theorem rankRows_pairwise : ∀ (i : Nat) (rows : List ScoreRow),
    rows.Pairwise scoreDesc →
      (rankRows i rows).Pairwise (fun a b : LbEntry => b.score ≤ a.score) := by
  intro i rows
  induction rows generalizing i with
  | nil => intro _; exact List.Pairwise.nil
  | cons r rs ih =>
      intro h
      rcases List.pairwise_cons.mp h with ⟨h1, h2⟩
      refine List.pairwise_cons.mpr ⟨?_, ih (i + 1) h2⟩
      intro e he
      obtain ⟨x, hx, hxe⟩ := mem_rankRows_score (i + 1) rs e he
      have : x.score ≤ r.score := h1 x hx
      rw [hxe]
      exact this

/-- `rankRows` keeps the number of rows. -/
theorem rankRows_length : ∀ (i : Nat) (rows : List ScoreRow),
    (rankRows i rows).length = rows.length := by
  intro i rows
  induction rows generalizing i with
  | nil => rfl
  | cons r rs ih => simp [rankRows, ih (i + 1)]

/-- The ranks assigned by `rankRows` starting at index `i` are the
consecutive integers `i+1, i+2, …`. -/
theorem rankRows_map_rank : ∀ (i : Nat) (rows : List ScoreRow),
    (rankRows i rows).map (fun e => e.rank) =
      List.range' (i + 1) rows.length := by
  intro i rows
  induction rows generalizing i with
  | nil => rfl
  | cons r rs ih =>
      simp only [rankRows, List.map_cons, List.length_cons, List.range'_succ]
      rw [ih (i + 1)]

/-- The SQL `LIMIT` keeps the order of its input. -/
theorem pairwise_sqlLimit (limit : Int) (rows : List ScoreRow)
    (h : rows.Pairwise scoreDesc) : (sqlLimit limit rows).Pairwise scoreDesc := by
  unfold sqlLimit
  by_cases hl : limit < 0
  · rw [if_pos hl]; exact h
  · rw [if_neg hl]; exact List.Pairwise.sublist (List.take_sublist _ _) h

/-- C8: against the `game_saves` table that `initSchema` actually creates
(the `schema.sql` layout), every recognized-category leaderboard query fails
with SQLite's `no such column` error â `getLeaderboard` never returns any
entries, ordered or otherwise; and the rank-assignment logic itself (second
part) would order any score column non-increasingly with ranks
`1, 2, 3, …`, so the failure is solely the schema mismatch.  Evaluation of
the code at the failing input of the code-bug report. -/
theorem c8_leaderboard_query_fails (users : List UserRow)
    (saves : List GameSaveStats) (limit : Int) :
    (getLeaderboardChecked users saves "coins" limit =
        .noSuchColumn "coins" ∧
      getLeaderboardChecked users saves "level" limit =
        .noSuchColumn "level" ∧
      getLeaderboardChecked users saves "sustainability" limit =
        .noSuchColumn "sustainability_score") ∧
      ∀ column : GameSaveStats → Int,
        (leaderboardView users saves column limit).Pairwise
            (fun a b : LbEntry => b.score ≤ a.score) ∧
          (leaderboardView users saves column limit).map (fun e => e.rank) =
            List.range' 1 (leaderboardView users saves column limit).length := by
  refine ⟨⟨rfl, rfl, rfl⟩, ?_⟩
  intro column
  unfold leaderboardView
  refine ⟨?_, ?_⟩
  · exact rankRows_pairwise 0 _
      (pairwise_sqlLimit limit _ (List.sorted_insertionSort scoreDesc _))
  · rw [rankRows_map_rank, rankRows_length]

/-! ## C9: limit validation -/

/-- C9, counterexample: `getLeaderboard("coins", 0)` is NOT rejected with an
invalid-argument error â the call fails with the `no such column: gs.coins`
storage error raised while the statement is prepared, before the limit
plays any role; no invalid-argument rejection exists anywhere in the
code. -/
theorem c9_zero_limit_counterexample :
    getLeaderboardChecked [sampleUser] [⟨1, 3, 500, 2, 10⟩] "coins" 0 =
      .noSuchColumn "coins" := by
  rfl

/-- C9, amended: `getLeaderboard` contains no validation of the limit and
no invalid-argument error.  For a recognized category the outcome is
independent of the limit â zero and negative included, it is the same
`no such column` storage failure, raised before the limit is ever used; for
`total_coins` (the claim's particular input) the call is rejected as an
unrecognized category, again independently of the limit; and the HTTP route
maps a requested limit of 0 to the default 10 rather than rejecting it. -/
theorem c9_limit_never_validated (users : List UserRow)
    (saves : List GameSaveStats) (limit : Int) :
    getLeaderboardChecked users saves "coins" limit =
        .noSuchColumn "coins" ∧
      getLeaderboardChecked users saves "coins" limit =
        getLeaderboardChecked users saves "coins" 0 ∧
      getLeaderboard users saves "total_coins" 0 =
        .error .invalidCategory ∧
      routeLimit (some 0) = 10 := by
  exact ⟨rfl, rfl, rfl, rfl⟩

/-! ## C10: route / engine field mismatch -/

/-- C10: every entry returned by `Database.getLeaderboard` carries only the
keys `rank`, `username`, `score`, `lastUpdated`, so the HTTP leaderboard
routes — which read `rank_position` and `updated_at` — format every entry
with an undefined rank and timestamp, and the user-position route's search
by `user_id` never locates any user. -/
theorem c10_route_field_mismatch (users : List UserRow)
    (saves : List GameSaveStats) (category : String) (limit : Int)
    (es : List LbEntry)
    (_h : getLeaderboard users saves category limit = .ok es) :
    (∀ e ∈ es, (formatEntry (LbEntry.toObj e)).rank = none ∧
        (formatEntry (LbEntry.toObj e)).updatedAt = none) ∧
      ∀ userId : Int,
        (es.map LbEntry.toObj).find? (fun o => userIdMatches o userId) = none := by
  constructor
  · intro e _
    exact ⟨rfl, rfl⟩
  · intro userId
    rw [List.find?_eq_none]
    intro o ho
    obtain ⟨e, _, rfl⟩ := List.mem_map.mp ho
    show ¬ userIdMatches (LbEntry.toObj e) userId = true
    intro hcontra
    have hfalse : userIdMatches (LbEntry.toObj e) userId = false := rfl
    rw [hfalse] at hcontra
    cases hcontra

/-- C10, witness: the single scenario entry formats with an undefined rank
and the position search misses user 1 even though the entry is farmer1's. -/
theorem c10_route_field_mismatch_witness :
    (formatEntry (LbEntry.toObj ⟨1, "farmer1", 500, 10⟩)).rank = none ∧
      ([(⟨1, "farmer1", 500, 10⟩ : LbEntry)].map LbEntry.toObj).find?
          (fun o => userIdMatches o 1) = none := by
  have h := c10_route_field_mismatch [sampleUser] [⟨1, 3, 500, 2, 10⟩]
    "coins" 10 [⟨1, "farmer1", 500, 10⟩] (by rfl)
  exact ⟨(h.1 ⟨1, "farmer1", 500, 10⟩ (by simp)).1, h.2 1⟩
